import Mathlib

/-!
Shallow embedding of the tachograph driver card reader (src/main.rs).

The program's core is a straight-line card-reading session: it builds
ISO 7816-4 APDU byte commands (SELECT DF, SELECT EF, READ BINARY), sends
them over an abstract transport, slices the raw responses into fixed-width
fields with `take_n`, and decodes the fields as UTF-8 text or binary-coded
decimal digit strings.

Bytes are modelled as natural numbers (values 0..255 in every input the
program ever produces); byte buffers as `List Nat`.  Rust `Result` becomes
`Except`, a Rust panic (`unwrap` on an error, out-of-bounds index) becomes
`Option.none` in the decoding functions and the `panic` outcome of the
session.  All definitions are executable.
-/

/-- Byte buffers: each entry is one byte (0..255). -/
abbrev Bytes := List Nat

/-- Error returned by `take_n` (src/main.rs lines 142-150): the Rust code
builds `std::io::Error::new(InvalidData, "Data is too short")`; the spec
names this failure `TruncatedData`. -/
inductive DecodeError where
  | truncatedData
  deriving DecidableEq, Repr

/-- Transport-layer failure of a `card.transmit` exchange (the spec's
boundary error `TransportError{NoCard, ReaderUnavailable, IoFailure}`;
in the Rust code this is the opaque `pcsc::Error`). -/
inductive TransportError where
  | noCard
  | readerUnavailable
  | ioFailure
  deriving DecidableEq, Repr

/-- Embedding of `take_n` (src/main.rs lines 142-150): returns the first
`n` bytes and the remainder (`data.split_at(n)`), or fails when the data
is too short (`data.len() < n`). -/
def take_n (n : Nat) (data : Bytes) : Except DecodeError (Bytes × Bytes) :=
  if data.length < n then
    .error .truncatedData
  else
    .ok (data.take n, data.drop n)

/-- Embedding of Rust `u8::from_str_radix(s, 2)` as used on each 4-character
chunk in `bcdstring_from_byte_string`: an optional sign followed by at least
one binary digit, value fitting in a `u8`.  `none` models `Err` (and hence,
at the call site, the `unwrap` panic). -/
def from_str_radix_2 (cs : List Char) : Option Nat :=
  let core : List Char → Option Nat := fun ds =>
    if ds.isEmpty then none
    else
      ds.foldl
        (fun acc c =>
          match acc with
          | none => none
          | some a =>
            if c = '0' then (if 2 * a ≤ 255 then some (2 * a) else none)
            else if c = '1' then (if 2 * a + 1 ≤ 255 then some (2 * a + 1) else none)
            else none)
        (some 0)
  match cs with
  | '+' :: rest => core rest
  | '-' :: rest =>
    match core rest with
    | some 0 => some 0
    | _ => none
  | _ => core cs

/-- Embedding of slice `chunks(4)`: successive chunks of four characters,
the last chunk possibly shorter. -/
def chunks4 : List Char → List (List Char)
  | a :: b :: c :: d :: rest => [a, b, c, d] :: chunks4 rest
  | [] => []
  | rest => [rest]

/-- Embedding of `bcdstring_from_byte_string` (src/main.rs lines 122-132):
splits the character string into chunks of four, parses each chunk as a
binary number, renders it in decimal with `to_string()` and concatenates
the results.  `none` models the `unwrap` panic on a chunk that is not a
binary numeral. -/
def bcdstring_from_byte_string (data : String) : Option String :=
  ((chunks4 data.toList).mapM (fun chunk =>
      (from_str_radix_2 chunk).map (fun n => toString n))).map
    (fun parts => String.join parts)

/-- Embedding of `format!("{:08b}", b)` for a byte `b`: its eight binary
digits, most significant first. -/
def byteBits (b : Nat) : List Char :=
  (List.range 8).map (fun i => if b / 2 ^ (7 - i) % 2 = 1 then '1' else '0')

/-- UTF-8 continuation byte test (`0x80..=0xBF`). -/
def utf8Cont (b : Nat) : Bool :=
  0x80 ≤ b && b ≤ 0xBF

/-- Admissible second byte of a three-byte UTF-8 sequence, given its first
byte: excludes overlong encodings (first byte `0xE0`) and surrogate code
points (first byte `0xED`). -/
def utf8Valid3 (b0 b1 : Nat) : Bool :=
  (b0 == 0xE0 && 0xA0 ≤ b1) || (b0 == 0xED && b1 ≤ 0x9F) || (b0 != 0xE0 && b0 != 0xED)

/-- Admissible second byte of a four-byte UTF-8 sequence, given its first
byte: excludes overlong encodings (first byte `0xF0`) and code points above
`0x10FFFF` (first byte `0xF4`). -/
def utf8Valid4 (b0 b1 : Nat) : Bool :=
  (b0 == 0xF0 && 0x90 ≤ b1) || (b0 == 0xF4 && b1 ≤ 0x8F) || (b0 != 0xF0 && b0 != 0xF4)

/-- UTF-8 validation and decoding, mirroring the validation performed by
Rust `String::from_utf8`: `none` on any ill-formed sequence (stray
continuation byte, overlong form, surrogate, out-of-range code point,
truncated sequence). -/
def utf8Decode : Bytes → Option (List Char)
  | [] => some []
  | b0 :: rest =>
    if b0 < 0x80 then
      (utf8Decode rest).map (fun cs => Char.ofNat b0 :: cs)
    else if 0xC2 ≤ b0 && b0 ≤ 0xDF then
      match rest with
      | b1 :: rest1 =>
        if utf8Cont b1 then
          (utf8Decode rest1).map (fun cs =>
            Char.ofNat ((b0 - 0xC0) * 0x40 + (b1 - 0x80)) :: cs)
        else none
      | [] => none
    else if 0xE0 ≤ b0 && b0 ≤ 0xEF then
      match rest with
      | b1 :: b2 :: rest2 =>
        if utf8Cont b1 && utf8Cont b2 && utf8Valid3 b0 b1 then
          (utf8Decode rest2).map (fun cs =>
            Char.ofNat ((b0 - 0xE0) * 0x1000 + (b1 - 0x80) * 0x40 + (b2 - 0x80)) :: cs)
        else none
      | _ => none
    else if 0xF0 ≤ b0 && b0 ≤ 0xF4 then
      match rest with
      | b1 :: b2 :: b3 :: rest3 =>
        if utf8Cont b1 && utf8Cont b2 && utf8Cont b3 && utf8Valid4 b0 b1 then
          (utf8Decode rest3).map (fun cs =>
            Char.ofNat ((b0 - 0xF0) * 0x40000 + (b1 - 0x80) * 0x1000
              + (b2 - 0x80) * 0x40 + (b3 - 0x80)) :: cs)
        else none
      | _ => none
    else none

/-- Embedding of `String::from_utf8(bytes)`: the decoded string, or `none`
on invalid UTF-8 (which, at every call site in `main`, is hit by `unwrap`
and therefore a panic). -/
def string_from_utf8 (b : Bytes) : Option String :=
  (utf8Decode b).map (fun cs => String.mk cs)

/-- The Unicode White_Space property, the character class removed by Rust
`str::trim` (via `char::is_whitespace`). -/
def isRustWhitespace (c : Char) : Bool :=
  let n := c.toNat
  n == 0x09 || n == 0x0A || n == 0x0B || n == 0x0C || n == 0x0D || n == 0x20 ||
  n == 0x85 || n == 0xA0 || n == 0x1680 || (0x2000 ≤ n && n ≤ 0x200A) ||
  n == 0x2028 || n == 0x2029 || n == 0x202F || n == 0x205F || n == 0x3000

/-- Embedding of Rust `str::trim`: removes leading and trailing whitespace
characters. -/
def rustTrim (s : String) : String :=
  String.mk (((s.toList.dropWhile isRustWhitespace).reverse.dropWhile
    isRustWhitespace).reverse)

/-- The bytes of an ASCII string, used to state properties about crafted
responses. -/
def asciiBytes (s : String) : Bytes :=
  s.toList.map Char.toNat

instance {ε α : Type} [DecidableEq ε] [DecidableEq α] : DecidableEq (Except ε α) := fun a b =>
  match a, b with
  | .ok x, .ok y => if h : x = y then .isTrue (by rw [h]) else .isFalse (by simp [h])
  | .error x, .error y => if h : x = y then .isTrue (by rw [h]) else .isFalse (by simp [h])
  | .ok _, .error _ => .isFalse (by simp)
  | .error _, .ok _ => .isFalse (by simp)

/-- Embedding of `SELECT_DF_COMMAND` (src/main.rs line 103): note that the
length byte `0x06` is part of the constant. -/
def SELECT_DF_COMMAND : Bytes := [0x00, 0xA4, 0x04, 0x0C, 0x06]

/-- Embedding of `SELECT_EF_UNDER_DF_COMMAND` (src/main.rs line 104): the
length byte `0x02` is part of the constant. -/
def SELECT_EF_UNDER_DF_COMMAND : Bytes := [0x00, 0xA4, 0x02, 0x0C, 0x02]

/-- Embedding of `READ_BINARY_COMMAND` (src/main.rs line 105). -/
def READ_BINARY_COMMAND : Bytes := [0x00, 0xB0]

/-- Embedding of `TACHOGRAPH_DF` (src/main.rs line 107): the
first-generation tachograph application DF name. -/
def TACHOGRAPH_DF : Bytes := [0xFF, 0x54, 0x41, 0x43, 0x48, 0x4F]

/-- Embedding of `TACHOGRAPH_GEN2_DF` (src/main.rs line 108): the
second-generation tachograph application DF name, defined but never used
by `main`. -/
def TACHOGRAPH_GEN2_DF : Bytes := [0xFF, 0x53, 0x4D, 0x52, 0x44, 0x54]

/-- Embedding of `TACHOGRAPH_IDENTIFICATION_EF` (src/main.rs line 110). -/
def TACHOGRAPH_IDENTIFICATION_EF : Bytes := [0x05, 0x20]

/-- Command construction of `transmit_select_df_apdu` (src/main.rs lines
84-88): the constant header (with its baked-in length byte `0x06`)
followed by the DF name. -/
def select_df_apdu (df : Bytes) : Bytes :=
  SELECT_DF_COMMAND ++ df

/-- Command construction of `transmit_select_ef_under_df_apdu`
(src/main.rs lines 90-94): the constant header followed by the EF id. -/
def select_ef_under_df_apdu (ef : Bytes) : Bytes :=
  SELECT_EF_UNDER_DF_COMMAND ++ ef

/-- Command construction of `transmit_read_binary_apdu` (src/main.rs lines
96-101): header `00 B0` plus one offset byte and one length byte.  This
helper is defined in the source but never called by `main`, which uses the
five-byte literals below instead. -/
def read_binary_apdu (offset length : Nat) : Bytes :=
  READ_BINARY_COMMAND ++ [offset, length]

/-- Embedding of the literal `read_card_identification_apdu`
(src/main.rs line 43): `b"\x00\xB0\x00\x00\x41"`, five bytes. -/
def read_card_identification_apdu : Bytes := [0x00, 0xB0, 0x00, 0x00, 0x41]

/-- Embedding of the literal `read_card_holder_identification_apdu`
(src/main.rs line 57): `b"\x00\xB0\x00\x41\x4E"`, five bytes. -/
def read_card_holder_identification_apdu : Bytes := [0x00, 0xB0, 0x00, 0x41, 0x4E]

/-- Decoding of the card identification response (src/main.rs lines
52-54): discard one byte, take sixteen bytes, decode them as UTF-8.
`none` models a panic of one of the `unwrap` calls. -/
def decode_card_identification (resp : Bytes) : Option String :=
  match take_n 1 resp with
  | .error _ => none
  | .ok (_, remaining) =>
    match take_n 16 remaining with
    | .error _ => none
    | .ok (card_number, _) => string_from_utf8 card_number

/-- The card holder fields decoded by `main` (src/main.rs lines 59-79). -/
structure HolderData where
  first_name : String
  last_name : String
  year : String
  month : String
  day : String
  preferred_language : String
  deriving DecidableEq, Repr

/-- Decoding of the card holder identification response (src/main.rs
lines 59-75): a 72-byte name block (36-byte last name, 36-byte first
name, both UTF-8 decoded and trimmed), a 4-byte BCD birth date and a
2-byte preferred language (UTF-8 decoded, not trimmed).  `none` models a
panic of one of the `unwrap` calls or of an out-of-range index. -/
def decode_card_holder_identification (resp : Bytes) : Option HolderData :=
  match take_n 72 resp with
  | .error _ => none
  | .ok (card_holder_name, card_holder_remaining) =>
    match take_n 36 card_holder_name with
    | .error _ => none
    | .ok (last_name_bytes, remaining) =>
      match take_n 36 remaining with
      | .error _ => none
      | .ok (first_name_bytes, _) =>
        match take_n 4 card_holder_remaining with
        | .error _ => none
        | .ok (birth_date, remaining2) =>
          match take_n 2 remaining2 with
          | .error _ => none
          | .ok (preferred_language_bytes, _) =>
            match string_from_utf8 first_name_bytes,
                  string_from_utf8 last_name_bytes with
            | some first_name_raw, some last_name_raw =>
              let first_name := rustTrim first_name_raw
              let last_name := rustTrim last_name_raw
              match string_from_utf8 preferred_language_bytes with
              | none => none
              | some preferred_language =>
                match birth_date[0]?, birth_date[1]?,
                      birth_date[2]?, birth_date[3]? with
                | some b0, some b1, some b2, some b3 =>
                  match bcdstring_from_byte_string
                          (String.mk (byteBits b0 ++ byteBits b1)),
                        bcdstring_from_byte_string (String.mk (byteBits b2)),
                        bcdstring_from_byte_string (String.mk (byteBits b3)) with
                  | some year, some month, some day =>
                    some ⟨first_name, last_name, year, month, day,
                          preferred_language⟩
                  | _, _, _ => none
                | _, _, _, _ => none
            | _, _ => none

/-- The values `main` prints for the card being read, in print order. -/
inductive Emitted where
  | driverCardNumber (s : String)
  | firstName (s : String)
  | lastName (s : String)
  | year (s : String)
  | month (s : String)
  | day (s : String)
  | preferredLanguage (s : String)
  deriving DecidableEq, Repr

/-- How a session run ends: normal completion (`main` returns `Ok(())`),
a propagated transport error (`?` on a failed transmit), or a panic of an
`unwrap` during decoding. -/
inductive Outcome where
  | ok
  | err (e : TransportError)
  | panic
  deriving DecidableEq, Repr

/-- Everything observable about one session run: the commands transmitted
to the card in order, the values printed in order, and how the run
ended. -/
structure RunResult where
  trace : List Bytes
  printed : List Emitted
  outcome : Outcome
  deriving DecidableEq, Repr

/-- The transport boundary: the response (or transport error) the card
gives to the i-th `card.transmit` call of the run. -/
abbrev Transport := Nat → Except TransportError Bytes

/-- The four commands `main` transmits, in program order (src/main.rs
lines 46, 48, 51, 58). -/
def sessionCommands : List Bytes :=
  [select_df_apdu TACHOGRAPH_DF,
   select_ef_under_df_apdu TACHOGRAPH_IDENTIFICATION_EF,
   read_card_identification_apdu,
   read_card_holder_identification_apdu]

/-- Embedding of the card-reading sequence of `main` (src/main.rs lines
43-81), starting after the reader connection is established: transmit
SELECT DF, SELECT EF and the two READ BINARY commands in order, decoding
the two read responses.  A failed transmit propagates immediately (`?`);
a decode failure panics.  All decoding `unwrap`s of a step precede that
step's prints, so each step's emissions are all-or-nothing. -/
def runSession (t : Transport) : RunResult :=
  match t 0 with
  | .error e => ⟨[select_df_apdu TACHOGRAPH_DF], [], .err e⟩
  | .ok _ =>
    match t 1 with
    | .error e =>
      ⟨[select_df_apdu TACHOGRAPH_DF,
        select_ef_under_df_apdu TACHOGRAPH_IDENTIFICATION_EF], [], .err e⟩
    | .ok _ =>
      match t 2 with
      | .error e =>
        ⟨[select_df_apdu TACHOGRAPH_DF,
          select_ef_under_df_apdu TACHOGRAPH_IDENTIFICATION_EF,
          read_card_identification_apdu], [], .err e⟩
      | .ok resp2 =>
        match decode_card_identification resp2 with
        | none =>
          ⟨[select_df_apdu TACHOGRAPH_DF,
            select_ef_under_df_apdu TACHOGRAPH_IDENTIFICATION_EF,
            read_card_identification_apdu], [], .panic⟩
        | some dcn =>
          match t 3 with
          | .error e =>
            ⟨sessionCommands, [.driverCardNumber dcn], .err e⟩
          | .ok resp3 =>
            match decode_card_holder_identification resp3 with
            | none => ⟨sessionCommands, [.driverCardNumber dcn], .panic⟩
            | some h =>
              ⟨sessionCommands,
               [.driverCardNumber dcn, .firstName h.first_name,
                .lastName h.last_name, .year h.year, .month h.month,
                .day h.day, .preferredLanguage h.preferred_language],
               .ok⟩

/-- Stub transport: every transmit succeeds with an empty response. -/
def stubEmptyOk : Transport := fun _ => .ok []

/-- Stub transport: every transmit fails with `noCard`. -/
def stubFail : Transport := fun _ => .error .noCard

/-- Stub transport: every transmit succeeds with 65 ASCII `'0'` bytes. -/
def stubZeros : Transport := fun _ => .ok (List.replicate 65 0x30)

/-- Stub transport: ASCII digits card-identification response, empty
responses otherwise. -/
def stubCardNumber : Transport := fun i =>
  if i = 2 then
    .ok (0x00 :: (asciiBytes "1234567890123456" ++ List.replicate 48 0x20))
  else .ok []

/-- Stub transport: card-identification response whose card number field
is `"DOE"` followed by thirteen padding spaces, empty responses
otherwise. -/
def stubDoe : Transport := fun i =>
  if i = 2 then
    .ok (0x00 :: (asciiBytes "DOE" ++ List.replicate 13 0x20 ++ List.replicate 48 0x30))
  else .ok []

/-- Concrete card-identification response: discarded byte, then `"DOE"`
padded with thirteen spaces. -/
def doeRespI : Bytes := 0x00 :: (asciiBytes "DOE" ++ List.replicate 13 0x20)

/-- Concrete card-holder response: surname `"DOE"` (padded to 36 bytes),
first name `"JOHN"` (padded to 36 bytes), birth date `19 85 03 15`,
language `"fi"`. -/
def doeRespH : Bytes :=
  asciiBytes "DOE" ++ List.replicate 33 0x20 ++
  asciiBytes "JOHN" ++ List.replicate 32 0x20 ++
  [0x19, 0x85, 0x03, 0x15] ++ asciiBytes "fi"

/-- The card number the session yields for `doeRespI`: padding intact. -/
def doeCardNumber : String := "DOE" ++ String.mk (List.replicate 13 ' ')

/-- The holder fields the session yields for `doeRespH`: names trimmed,
language untouched. -/
def doeHolder : HolderData := ⟨"JOHN", "DOE", "1985", "03", "15", "fi"⟩


/-- Helper: a successful `take_n` is exactly `split_at`. -/
lemma take_n_of_le {n : Nat} {data : Bytes} (h : n ≤ data.length) :
    take_n n data = .ok (data.take n, data.drop n) := by
  unfold take_n
  rw [if_neg (by omega)]

/-- Helper: `take_n` fails exactly on short data. -/
lemma take_n_of_lt {n : Nat} {data : Bytes} (h : data.length < n) :
    take_n n data = .error .truncatedData := by
  unfold take_n
  rw [if_pos h]

/-- Helper: inversion of a successful `take_n`. -/
lemma take_n_ok_inv {n : Nat} {data : Bytes} {p : Bytes × Bytes}
    (h : take_n n data = .ok p) :
    n ≤ data.length ∧ p = (data.take n, data.drop n) := by
  unfold take_n at h
  by_cases hlt : data.length < n
  · rw [if_pos hlt] at h
    cases h
  · rw [if_neg hlt] at h
    cases h
    exact ⟨by omega, rfl⟩

/-- Helper: every run transmits a prefix (at least one, at most all four)
of the fixed command sequence, in order. -/
lemma runSession_trace_take (t : Transport) :
    ∃ k, 1 ≤ k ∧ k ≤ 4 ∧ (runSession t).trace = sessionCommands.take k := by
  unfold runSession
  split
  · exact ⟨1, by omega, by omega, rfl⟩
  split
  · exact ⟨2, by omega, by omega, rfl⟩
  split
  · exact ⟨3, by omega, by omega, rfl⟩
  split
  · exact ⟨3, by omega, by omega, rfl⟩
  split
  · exact ⟨4, by omega, by omega, rfl⟩
  split
  · exact ⟨4, by omega, by omega, rfl⟩
  · exact ⟨4, by omega, by omega, rfl⟩

/-- Helper: a byte string none of whose windows equals `needle` does not
contain `needle` as a contiguous subsequence. -/
lemma ne_append_of_windows {needle hay : Bytes}
    (h : ∀ i, i < hay.length + 1 → (hay.drop i).take needle.length ≠ needle) :
    ∀ l r, hay ≠ l ++ needle ++ r := by
  intro l r heq
  refine h l.length ?_ ?_
  · subst heq
    simp [List.length_append]
    omega
  · subst heq
    rw [List.append_assoc, List.drop_left, List.take_left]

/-- Helper: the second-generation DF name occurs in none of the four
transmitted commands. -/
lemma gen2_not_in_commands :
    ∀ c ∈ sessionCommands, ∀ l r, c ≠ l ++ TACHOGRAPH_GEN2_DF ++ r := by
  intro c hc
  fin_cases hc <;>
    · apply ne_append_of_windows
      decide

/-- C2: for every byte sequence `data` and every `n`, if `n ≤ data.length`
then `take_n n data` succeeds with a head of length `n` and a tail of
length `data.length - n` whose concatenation is `data`; if
`n > data.length` it fails with `TruncatedData`. -/
theorem take_n_spec (n : Nat) (data : Bytes) :
    (n ≤ data.length →
      ∃ head tail, take_n n data = .ok (head, tail) ∧ head.length = n ∧
        tail.length = data.length - n ∧ head ++ tail = data) ∧
    (data.length < n → take_n n data = .error .truncatedData) := by
  constructor
  · intro h
    refine ⟨data.take n, data.drop n, take_n_of_le h, ?_, ?_, ?_⟩
    · rw [List.length_take]
      omega
    · rw [List.length_drop]
    · exact List.take_append_drop n data
  · intro h
    exact take_n_of_lt h

/-- Witness for C2 at concrete inputs: splitting two bytes off a
three-byte buffer succeeds as described, taking five fails. -/
theorem take_n_spec_witness :
    2 ≤ List.length [7, 8, 9] ∧ List.length [7, 8, 9] < 5 ∧
    (∃ head tail, take_n 2 [7, 8, 9] = .ok (head, tail) ∧
      List.length head = 2 ∧ List.length tail = List.length [7, 8, 9] - 2 ∧
      head ++ tail = [7, 8, 9]) ∧
    take_n 5 [7, 8, 9] = .error .truncatedData :=
  ⟨by decide, by decide, (take_n_spec 2 [7, 8, 9]).1 (by decide),
   (take_n_spec 5 [7, 8, 9]).2 (by decide)⟩

/-- C7: every run transmits a prefix of the fixed command sequence
SELECT DF, SELECT EF, READ BINARY (identification), READ BINARY (holder),
in that order with no repetition; and whenever a transmitted command's
exchange fails, it is the last command transmitted and its error is the
run's result. -/
theorem session_fixed_order (t : Transport) :
    (∃ k, 1 ≤ k ∧ k ≤ 4 ∧ (runSession t).trace = sessionCommands.take k) ∧
    (∀ i e, i < (runSession t).trace.length → t i = .error e →
      (runSession t).trace = sessionCommands.take (i + 1) ∧
      (runSession t).outcome = .err e) := by
  refine ⟨runSession_trace_take t, ?_⟩
  intro i e hi hte
  have hi4 : i < 4 := by
    obtain ⟨k, -, hk4, htr⟩ := runSession_trace_take t
    rw [htr, List.length_take] at hi
    have h4 : sessionCommands.length = 4 := by decide
    rw [h4] at hi
    omega
  interval_cases i
  · simp only [runSession, hte]
    exact ⟨rfl, trivial⟩
  · cases h0 : t 0 with
    | error e0 =>
      rw [runSession] at hi
      simp only [h0] at hi
      simp at hi
    | ok r0 =>
      simp only [runSession, h0, hte]
      exact ⟨rfl, trivial⟩
  · cases h0 : t 0 with
    | error e0 =>
      rw [runSession] at hi
      simp only [h0] at hi
      simp at hi
    | ok r0 =>
      cases h1 : t 1 with
      | error e1 =>
        rw [runSession] at hi
        simp only [h0, h1] at hi
        simp at hi
      | ok r1 =>
        simp only [runSession, h0, h1, hte]
        exact ⟨rfl, trivial⟩
  · cases h0 : t 0 with
    | error e0 =>
      rw [runSession] at hi
      simp only [h0] at hi
      simp at hi
    | ok r0 =>
      cases h1 : t 1 with
      | error e1 =>
        rw [runSession] at hi
        simp only [h0, h1] at hi
        simp at hi
      | ok r1 =>
        cases h2 : t 2 with
        | error e2 =>
          rw [runSession] at hi
          simp only [h0, h1, h2] at hi
          simp at hi
        | ok r2 =>
          cases hd : decode_card_identification r2 with
          | none =>
            rw [runSession] at hi
            simp only [h0, h1, h2, hd] at hi
            simp at hi
          | some dcn =>
            simp only [runSession, h0, h1, h2, hd, hte]
            exact ⟨rfl, trivial⟩

/-- Witness for C7: a transport that fails immediately makes the run
transmit only the SELECT DF command and return that transport error. -/
theorem session_fixed_order_witness :
    0 < (runSession stubFail).trace.length ∧
    stubFail 0 = .error .noCard ∧
    (runSession stubFail).trace = sessionCommands.take 1 ∧
    (runSession stubFail).outcome = .err .noCard := by
  refine ⟨by decide, rfl, ?_⟩
  have h := (session_fixed_order stubFail).2 0 .noCard (by decide) rfl
  exact h

/-- C10: in every run, the first command transmitted is exactly the
SELECT DF command `00 A4 04 0C 06 FF 54 41 43 48 4F` naming the
first-generation tachograph DF, and the second-generation DF name
`FF 53 4D 52 44 54` occurs contiguously in no transmitted command. -/
theorem session_selects_gen1_only (t : Transport) :
    (runSession t).trace.head? = some (select_df_apdu TACHOGRAPH_DF) ∧
    select_df_apdu TACHOGRAPH_DF =
      [0x00, 0xA4, 0x04, 0x0C, 0x06, 0xFF, 0x54, 0x41, 0x43, 0x48, 0x4F] ∧
    ∀ c ∈ (runSession t).trace, ∀ l r, c ≠ l ++ TACHOGRAPH_GEN2_DF ++ r := by
  obtain ⟨k, hk1, hk4, htr⟩ := runSession_trace_take t
  refine ⟨?_, by decide, ?_⟩
  · rw [htr]
    obtain ⟨m, rfl⟩ : ∃ m, k = m + 1 := ⟨k - 1, by omega⟩
    rfl
  · intro c hc l r
    rw [htr] at hc
    exact gen2_not_in_commands c (List.take_subset _ _ hc) l r

/-- Witness for C10: on a concrete transport the first transmitted
command is the Gen1 SELECT DF and is not a string around the Gen2
name. -/
theorem session_selects_gen1_only_witness :
    (runSession stubEmptyOk).trace.head? = some (select_df_apdu TACHOGRAPH_DF) ∧
    select_df_apdu TACHOGRAPH_DF ∈ (runSession stubEmptyOk).trace ∧
    select_df_apdu TACHOGRAPH_DF ≠ [] ++ TACHOGRAPH_GEN2_DF ++ [] := by
  refine ⟨(session_selects_gen1_only stubEmptyOk).1, by decide, ?_⟩
  exact (session_selects_gen1_only stubEmptyOk).2.2 _ (by decide) [] []

/-- C8: BCD decoding maps byte `0x25` to `"25"` and `0x99` to `"99"`, and
the birth-date bytes `[0x19, 0x85, 0x03, 0x15]` decode (as `main` decodes
them: the first two bytes' bits concatenated for the year, one byte each
for month and day) to year `"1985"`, month `"03"`, day `"15"`; the card
holder decoder yields exactly those field values for a response carrying
those four birth-date bytes. -/
theorem bcd_concrete_values :
    bcdstring_from_byte_string (String.mk (byteBits 0x25)) = some "25" ∧
    bcdstring_from_byte_string (String.mk (byteBits 0x99)) = some "99" ∧
    bcdstring_from_byte_string (String.mk (byteBits 0x19 ++ byteBits 0x85)) =
      some "1985" ∧
    bcdstring_from_byte_string (String.mk (byteBits 0x03)) = some "03" ∧
    bcdstring_from_byte_string (String.mk (byteBits 0x15)) = some "15" ∧
    decode_card_holder_identification
        (List.replicate 72 0x20 ++ [0x19, 0x85, 0x03, 0x15] ++ asciiBytes "fi") =
      some ⟨"", "", "1985", "03", "15", "fi"⟩ := by
  decide

/-- Counterexample to C1: decoding the byte `0xA5`, whose high nibble is
`0xA > 9`, does not fail; it succeeds and formats the nibble as the
two-digit number `"10"`, yielding `"105"`. -/
theorem bcd_accepts_invalid_nibble :
    bcdstring_from_byte_string (String.mk (byteBits 0xA5)) = some "105" := by
  decide

set_option maxRecDepth 100000 in
/-- C1 as amended: BCD decoding of a byte never fails; every 4-bit nibble
is formatted with `to_string()` as its decimal value, so nibbles `0xA`
through `0xF` are silently accepted and rendered as the multi-digit
numbers `"10"` through `"15"`. -/
theorem bcd_formats_every_nibble :
    ∀ b < 256, bcdstring_from_byte_string (String.mk (byteBits b)) =
      some (toString (b / 16) ++ toString (b % 16)) := by
  decide

/-- Witness for amended C1 at byte `0xA5`: nibbles `0xA` and `0x5` are
formatted as `"10"` and `"5"`. -/
theorem bcd_formats_every_nibble_witness :
    0xA5 < 256 ∧
    bcdstring_from_byte_string (String.mk (byteBits 0xA5)) =
      some (toString (0xA5 / 16) ++ toString (0xA5 % 16)) :=
  ⟨by decide, bcd_formats_every_nibble 0xA5 (by decide)⟩

/-- Counterexample to C4: for the one-byte (hence non-empty, within 255
bytes) DF name `[0xFF]`, the built SELECT DF command carries the fixed
length byte `0x06` from the constant header, not the name's length
`0x01`; and for the empty name the builder succeeds with the bare header
instead of failing. -/
theorem select_df_fixed_length_byte :
    select_df_apdu [0xFF] = [0x00, 0xA4, 0x04, 0x0C, 0x06, 0xFF] ∧
    select_df_apdu [0xFF] ≠ [0x00, 0xA4, 0x04, 0x0C, 0x01, 0xFF] ∧
    select_df_apdu [] = [0x00, 0xA4, 0x04, 0x0C, 0x06] := by
  decide

/-- C4 as amended: for every DF name, the SELECT DF builder returns the
fixed header `00 A4 04 0C 06` (whose length byte is the constant `0x06`,
regardless of the name's length) followed by the name, and never fails;
in particular for the six-byte tachograph DF name it returns
`00 A4 04 0C 06 FF 54 41 43 48 4F`. -/
theorem select_df_apdu_spec (name : Bytes) :
    select_df_apdu name = [0x00, 0xA4, 0x04, 0x0C, 0x06] ++ name ∧
    select_df_apdu TACHOGRAPH_DF =
      [0x00, 0xA4, 0x04, 0x0C, 0x06, 0xFF, 0x54, 0x41, 0x43, 0x48, 0x4F] :=
  ⟨rfl, rfl⟩

/-- Counterexample to C3: in a run reaching both reads, the transmitted
READ BINARY commands are the five-byte `00 B0 00 00 41` and
`00 B0 00 41 4E` (two offset bytes between header and length), not the
four-byte `00 B0 00 41` and `00 B0 41 4E` the claim states. -/
theorem read_binary_commands_five_bytes :
    (runSession stubZeros).trace[2]? = some [0x00, 0xB0, 0x00, 0x00, 0x41] ∧
    (runSession stubZeros).trace[3]? = some [0x00, 0xB0, 0x00, 0x41, 0x4E] ∧
    ([0x00, 0xB0, 0x00, 0x00, 0x41] : Bytes) ≠ [0x00, 0xB0, 0x00, 0x41] ∧
    ([0x00, 0xB0, 0x00, 0x41, 0x4E] : Bytes) ≠ [0x00, 0xB0, 0x41, 0x4E] := by
  decide

/-- C3 as amended: every READ BINARY command the session transmits
consists of the fixed two-byte header `00 B0` followed by two offset
bytes and one length byte — `00 B0 00 00 41` for the card-identification
read and `00 B0 00 41 4E` for the card-holder-identification read. -/
theorem session_read_binary_commands (t : Transport) :
    ∀ c ∈ (runSession t).trace, c.take 2 = READ_BINARY_COMMAND →
      c = READ_BINARY_COMMAND ++ [0x00, 0x00] ++ [0x41] ∨
      c = READ_BINARY_COMMAND ++ [0x00, 0x41] ++ [0x4E] := by
  intro c hc htake
  obtain ⟨k, -, -, htr⟩ := runSession_trace_take t
  rw [htr] at hc
  have hc4 := List.take_subset _ _ hc
  fin_cases hc4
  · exact absurd htake (by decide)
  · exact absurd htake (by decide)
  · left; rfl
  · right; rfl

/-- Witness for amended C3: in a concrete run, the card-identification
READ BINARY command is transmitted and has the five-byte form. -/
theorem session_read_binary_commands_witness :
    read_card_identification_apdu ∈ (runSession stubZeros).trace ∧
    read_card_identification_apdu.take 2 = READ_BINARY_COMMAND ∧
    (read_card_identification_apdu =
        READ_BINARY_COMMAND ++ [0x00, 0x00] ++ [0x41] ∨
      read_card_identification_apdu =
        READ_BINARY_COMMAND ++ [0x00, 0x41] ++ [0x4E]) :=
  ⟨by decide, by decide,
   session_read_binary_commands stubZeros read_card_identification_apdu
     (by decide) (by decide)⟩

/-- Counterexample to C6: when the card-identification response is too
short for the record layout (here: empty), the run ends in a panic (the
`unwrap` on `take_n`'s error crashes the process), not in an error value
returned to the caller. -/
theorem truncated_record_crashes :
    (runSession stubEmptyOk).outcome = .panic ∧
    (runSession stubEmptyOk).outcome ≠ .err .noCard ∧
    (runSession stubEmptyOk).outcome ≠ .err .readerUnavailable ∧
    (runSession stubEmptyOk).outcome ≠ .err .ioFailure := by
  decide

/-- C6 as amended: whenever a record-decoding step fails — response
shorter than the layout demands, or text bytes invalid in the expected
encoding — the session panics (crashes via `unwrap`) instead of
returning an error value; only transport failures are returned to the
caller as error values. -/
theorem session_decode_failure_panics (t : Transport) :
    (∀ r0 r1 resp, t 0 = .ok r0 → t 1 = .ok r1 → t 2 = .ok resp →
      decode_card_identification resp = none →
      (runSession t).outcome = .panic) ∧
    (∀ r0 r1 resp2 dcn resp3, t 0 = .ok r0 → t 1 = .ok r1 → t 2 = .ok resp2 →
      decode_card_identification resp2 = some dcn → t 3 = .ok resp3 →
      decode_card_holder_identification resp3 = none →
      (runSession t).outcome = .panic) := by
  constructor
  · intro r0 r1 resp h0 h1 h2 hd
    simp only [runSession, h0, h1, h2, hd]
  · intro r0 r1 resp2 dcn resp3 h0 h1 h2 hd2 h3 hd3
    simp only [runSession, h0, h1, h2, hd2, h3, hd3]

/-- Witness for amended C6: a transport whose responses are all empty
makes the card-identification decode fail and the run panic. -/
theorem session_decode_failure_panics_witness :
    decode_card_identification [] = none ∧
    (runSession stubEmptyOk).outcome = .panic :=
  ⟨by decide,
   (session_decode_failure_panics stubEmptyOk).1 [] [] [] rfl rfl rfl (by decide)⟩

/-- C9: for every transport whose selects succeed and whose
card-identification READ BINARY response is a 65-byte buffer with bytes
1-16 equal to the ASCII text `"1234567890123456"`, the session discards
byte 0 and yields the driver card number `"1234567890123456"` as its
first printed value. -/
theorem session_yields_driver_card_number (t : Transport) (r0 r1 resp : Bytes)
    (h0 : t 0 = .ok r0) (h1 : t 1 = .ok r1) (h2 : t 2 = .ok resp)
    (hlen : resp.length = 65)
    (hbytes : (resp.drop 1).take 16 = asciiBytes "1234567890123456") :
    (runSession t).printed.head? =
      some (.driverCardNumber "1234567890123456") := by
  have e1 : take_n 1 resp = .ok (resp.take 1, resp.drop 1) :=
    take_n_of_le (by omega)
  have e2 : take_n 16 (resp.drop 1) =
      .ok ((resp.drop 1).take 16, (resp.drop 1).drop 16) :=
    take_n_of_le (by rw [List.length_drop]; omega)
  have hdec : decode_card_identification resp = some "1234567890123456" := by
    simp only [decode_card_identification, e1, e2, hbytes]
    decide
  simp only [runSession, h0, h1, h2, hdec]
  cases h3 : t 3 with
  | error e => simp [h3]
  | ok resp3 =>
    cases hd3 : decode_card_holder_identification resp3 with
    | none => simp [h3, hd3]
    | some hh => simp [h3, hd3]

/-- Witness for C9 on a concrete stub transport: the crafted 65-byte
identification response yields driver card number `"1234567890123456"`. -/
theorem session_yields_driver_card_number_witness :
    stubCardNumber 2 =
      .ok (0x00 :: (asciiBytes "1234567890123456" ++ List.replicate 48 0x20)) ∧
    (0x00 :: (asciiBytes "1234567890123456" ++ List.replicate 48 0x20)).length = 65 ∧
    (runSession stubCardNumber).printed.head? =
      some (.driverCardNumber "1234567890123456") :=
  ⟨rfl, by decide,
   session_yields_driver_card_number stubCardNumber [] [] _ rfl rfl rfl
     (by decide) (by decide)⟩

/-- Counterexample to C5: the driver card number field is yielded with
its thirteen padding spaces intact — the session does not strip its
trailing whitespace, although trimming would give `"DOE"`. -/
theorem card_number_not_trimmed :
    (runSession stubDoe).printed.head? =
      some (.driverCardNumber ("DOE" ++ String.mk (List.replicate 13 ' '))) ∧
    rustTrim ("DOE" ++ String.mk (List.replicate 13 ' ')) = "DOE" ∧
    ("DOE" ++ String.mk (List.replicate 13 ' ')) ≠ "DOE" := by
  decide

/-- C5 as amended: of the four text fields, only the surname and the
first name are trimmed of padding whitespace before being yielded; the
driver card number and the preferred-language code are yielded exactly
as decoded, padding included.  Stated against the record decoders:
whenever they succeed, the card number equals the raw decode of response
bytes 1-16, the surname and first name equal the trimmed decodes of
holder bytes 0-35 and 36-71, and the preferred language equals the raw
decode of holder bytes 76-77. -/
theorem session_text_fields (respI respH : Bytes) (dI : String) (h : HolderData)
    (hI : decode_card_identification respI = some dI)
    (hH : decode_card_holder_identification respH = some h) :
    string_from_utf8 ((respI.drop 1).take 16) = some dI ∧
    (∃ s, string_from_utf8 (respH.take 36) = some s ∧ h.last_name = rustTrim s) ∧
    (∃ s, string_from_utf8 ((respH.drop 36).take 36) = some s ∧
      h.first_name = rustTrim s) ∧
    string_from_utf8 ((respH.drop 76).take 2) = some h.preferred_language := by
  have hIdent : string_from_utf8 ((respI.drop 1).take 16) = some dI := by
    rcases Nat.lt_or_ge respI.length 1 with hL | hL
    · simp only [decode_card_identification, take_n_of_lt hL] at hI
      cases hI
    · rcases Nat.lt_or_ge (respI.drop 1).length 16 with hL2 | hL2
      · simp only [decode_card_identification, take_n_of_le hL,
          take_n_of_lt hL2] at hI
        cases hI
      · simp only [decode_card_identification, take_n_of_le hL,
          take_n_of_le hL2] at hI
        exact hI
  rcases Nat.lt_or_ge respH.length 72 with hM | hM
  · simp only [decode_card_holder_identification, take_n_of_lt hM] at hH
    cases hH
  · have h36a : (36 : Nat) ≤ (respH.take 72).length := by
      rw [List.length_take]; omega
    have h36b : (36 : Nat) ≤ ((respH.take 72).drop 36).length := by
      rw [List.length_drop, List.length_take]; omega
    rcases Nat.lt_or_ge (respH.drop 72).length 4 with hM2 | hM2
    · simp only [decode_card_holder_identification, take_n_of_le hM,
        take_n_of_le h36a, take_n_of_le h36b, take_n_of_lt hM2] at hH
      cases hH
    · rcases Nat.lt_or_ge ((respH.drop 72).drop 4).length 2 with hM3 | hM3
      · simp only [decode_card_holder_identification, take_n_of_le hM,
          take_n_of_le h36a, take_n_of_le h36b, take_n_of_le hM2,
          take_n_of_lt hM3] at hH
        cases hH
      · simp only [decode_card_holder_identification, take_n_of_le hM,
          take_n_of_le h36a, take_n_of_le h36b, take_n_of_le hM2,
          take_n_of_le hM3] at hH
        cases hf : string_from_utf8 (((respH.take 72).drop 36).take 36) with
        | none =>
          simp only [hf] at hH
          cases hH
        | some sF =>
          cases hl : string_from_utf8 ((respH.take 72).take 36) with
          | none =>
            simp only [hf, hl] at hH
            cases hH
          | some sL =>
            simp only [hf, hl] at hH
            cases hp : string_from_utf8 (((respH.drop 72).drop 4).take 2) with
            | none =>
              simp only [hp] at hH
              cases hH
            | some sP =>
              simp only [hp] at hH
              cases hb0 : ((respH.drop 72).take 4)[0]? with
              | none =>
                simp only [hb0] at hH
                cases hH
              | some b0 =>
                cases hb1 : ((respH.drop 72).take 4)[1]? with
                | none =>
                  simp only [hb0, hb1] at hH
                  cases hH
                | some b1 =>
                  cases hb2 : ((respH.drop 72).take 4)[2]? with
                  | none =>
                    simp only [hb0, hb1, hb2] at hH
                    cases hH
                  | some b2 =>
                    cases hb3 : ((respH.drop 72).take 4)[3]? with
                    | none =>
                      simp only [hb0, hb1, hb2, hb3] at hH
                      cases hH
                    | some b3 =>
                      simp only [hb0, hb1, hb2, hb3] at hH
                      cases hy : bcdstring_from_byte_string
                          (String.mk (byteBits b0 ++ byteBits b1)) with
                      | none =>
                        simp only [hy] at hH
                        cases hH
                      | some y =>
                        cases hm : bcdstring_from_byte_string
                            (String.mk (byteBits b2)) with
                        | none =>
                          simp only [hy, hm] at hH
                          cases hH
                        | some m =>
                          cases hdd : bcdstring_from_byte_string
                              (String.mk (byteBits b3)) with
                          | none =>
                            simp only [hy, hm, hdd] at hH
                            cases hH
                          | some d =>
                            simp only [hy, hm, hdd] at hH
                            injection hH with hh
                            subst hh
                            have eL : (respH.take 72).take 36 = respH.take 36 := by
                              simp [List.take_take]
                            have eF : ((respH.take 72).drop 36).take 36 =
                                (respH.drop 36).take 36 := by
                              rw [List.drop_take]
                              norm_num
                            have eP : ((respH.drop 72).drop 4).take 2 =
                                (respH.drop 76).take 2 := by
                              rw [List.drop_drop]
                            exact ⟨hIdent,
                              ⟨sL, by rw [← eL]; exact hl, rfl⟩,
                              ⟨sF, by rw [← eF]; exact hf, rfl⟩,
                              by rw [← eP]; exact hp⟩
/-- Witness for amended C5 at the concrete responses: the two name
fields come out trimmed, the card number and language fields raw. -/
theorem session_text_fields_witness :
    decode_card_identification doeRespI = some doeCardNumber ∧
    decode_card_holder_identification doeRespH = some doeHolder ∧
    (string_from_utf8 ((doeRespI.drop 1).take 16) = some doeCardNumber ∧
      (∃ s, string_from_utf8 (doeRespH.take 36) = some s ∧
        doeHolder.last_name = rustTrim s) ∧
      (∃ s, string_from_utf8 ((doeRespH.drop 36).take 36) = some s ∧
        doeHolder.first_name = rustTrim s) ∧
      string_from_utf8 ((doeRespH.drop 76).take 2) =
        some doeHolder.preferred_language) :=
  ⟨by decide, by decide,
   session_text_fields doeRespI doeRespH doeCardNumber doeHolder
     (by decide) (by decide)⟩
